import Mathlib

/-!
Shallow embedding of the windgpx wind-exposure pipeline
(`CyclistWindAnalyzer`): GPX ingestion and validation, kinematics
derivation (cumulative distance, speed, bearing), temporal wind
interpolation, relative-wind computation, and route statistics.

Numbers the source manipulates with exact arithmetic (coordinates,
timestamps, wind sample values) are modelled as rationals where no
trigonometry is involved, and as reals where the source calls
`Math.sin`/`Math.cos`/`Math.atan2`/`Math.sqrt`.  The JavaScript `%`
operator is modelled by truncated remainder (`jsRem`), and JavaScript
falsy-coalescing (`x || d`) on numbers by an explicit zero test.
-/

namespace Windgpx

/-! ## Track ingestion and validation (source: readGPXFile,
extractGPXPoints, isValidCoordinate, validateTimestamps) -/

/-- A parsed timestamp.  The source stores a JS `Date`; the two
observations the pipeline makes of it — its epoch-millisecond value and
its calendar year (`getFullYear`) — are carried as separate fields,
calendar arithmetic not being re-derived here. -/
structure Timestamp where
  ms : ℤ
  year : ℤ
deriving DecidableEq

/-- A raw GPX point as produced by the XML extraction layer: parsed
`lat`/`lon`, elevation (already defaulted to 0 when absent), and an
optional timestamp (`none` when the `<time>` element is missing or
unparsable, mirroring `extractTimestamp` returning `null`). -/
structure RawPoint where
  lat : ℚ
  lon : ℚ
  elevation : ℚ
  time : Option Timestamp
deriving DecidableEq

/-- Source `isValidCoordinate(lat, lon)`: `lat && lon && !isNaN(lat) &&
!isNaN(lon) && lat >= -90 && lat <= 90 && lon >= -180 && lon <= 180`.
A numeric `lat`/`lon` is falsy exactly when it is `0` (or `NaN`, which a
rational cannot be), so the JS truthiness tests become zero tests. -/
def isValidCoordinate (lat lon : ℚ) : Bool :=
  decide (lat ≠ 0) && decide (lon ≠ 0) &&
    decide (-90 ≤ lat) && decide (lat ≤ 90) &&
    decide (-180 ≤ lon) && decide (lon ≤ 180)

/-- Source `extractGPXPoints`: keeps exactly the points whose
coordinates pass `isValidCoordinate`; invalid ones are skipped with a
warning.  (The DOM selector walk and per-field parsing feed this with
the `RawPoint`s.) -/
def extractGPXPoints (raw : List RawPoint) : List RawPoint :=
  raw.filter fun p => isValidCoordinate p.lat p.lon

/-- The `hasValidTimes` condition inside source `validateTimestamps`:
some point has a non-null, non-NaN timestamp whose year is > 2000. -/
def hasValidTimes (points : List RawPoint) : Bool :=
  points.any fun p =>
    match p.time with
    | some t => decide (2000 < t.year)
    | none => false

/-- The two fatal ingestion errors thrown by `readGPXFile` /
`validateTimestamps`. -/
inductive IngestError where
  | noValidPoints
  | missingTimestamps
deriving DecidableEq

/-- Source `validateTimestamps(points)`: throws the missing-timestamps
error exactly when no point has a valid post-2000 timestamp. -/
def validateTimestamps (points : List RawPoint) : Except IngestError Unit :=
  if hasValidTimes points then Except.ok () else Except.error IngestError.missingTimestamps

/-- Source `readGPXFile` validation phase: extract coordinate-valid
points, fail with the no-valid-points error when none remain, then run
`validateTimestamps`.  On success the source additionally sorts the
points by time before kinematics; the sort is outside the claims about
error raising and its comparator (`a.time - b.time`) is NaN-valued for
null times, so the success value here is the validated point list. -/
def readGPXFile (raw : List RawPoint) : Except IngestError (List RawPoint) :=
  let points := extractGPXPoints raw
  if points.length = 0 then Except.error IngestError.noValidPoints
  else
    match validateTimestamps points with
    | Except.error e => Except.error e
    | Except.ok _ => Except.ok points

/-! ## Temporal wind interpolation (source: interpolateWindForPoint,
findSurroundingWindData, interpolateBetweenWindPoints) -/

/-- Source `CONSTANTS.DEFAULT_WIND_SPEED`. -/
def DEFAULT_WIND_SPEED : ℚ := 10

/-- Source `CONSTANTS.DEFAULT_WIND_DIRECTION`. -/
def DEFAULT_WIND_DIRECTION : ℚ := 180

/-- One historical wind observation (an element of `this.windData`);
only the fields the interpolation reads are modelled. -/
structure WindSample where
  time : ℚ
  wind_speed : ℚ
  wind_direction : ℚ
deriving DecidableEq

/-- The `{wind_speed, wind_direction}` record `interpolateWindForPoint`
assigns onto a GPX point. -/
structure WindResult where
  wind_speed : ℚ
  wind_direction : ℚ
deriving DecidableEq

/-- Source `findSurroundingWindData(targetTime)`: scan consecutive
sample pairs for the first `i` with `windData[i].time <= targetTime &&
windData[i+1].time >= targetTime`; `before` and `after` are only ever
assigned together (both remain `null` when no bracketing pair exists). -/
def findSurroundingWindData : List WindSample → ℚ → Option WindSample × Option WindSample
  | a :: b :: rest, targetTime =>
    if a.time ≤ targetTime ∧ targetTime ≤ b.time then (some a, some b)
    else findSurroundingWindData (b :: rest) targetTime
  | _, _ => (none, none)

/-- Source `interpolateBetweenWindPoints(before, after, targetTime)`. -/
def interpolateBetweenWindPoints (before after : WindSample) (targetTime : ℚ) : WindResult :=
  let totalTime := after.time - before.time
  let pointTime := targetTime - before.time
  let t := if 0 < totalTime then pointTime / totalTime else 0
  { wind_speed := before.wind_speed + (after.wind_speed - before.wind_speed) * t
    wind_direction := before.wind_direction + (after.wind_direction - before.wind_direction) * t }

/-- Source `interpolateWindForPoint(gpxPoint)` (the point contributes
only its timestamp): empty sample list → documented defaults; singleton
→ that sample verbatim; otherwise interpolate in the bracketing pair if
one is found, else `before || after || this.windData[0]`. -/
def interpolateWindForPoint (windData : List WindSample) (targetTime : ℚ) : WindResult :=
  match windData with
  | [] => { wind_speed := DEFAULT_WIND_SPEED, wind_direction := DEFAULT_WIND_DIRECTION }
  | [w] => { wind_speed := w.wind_speed, wind_direction := w.wind_direction }
  | w0 :: w1 :: rest =>
    match findSurroundingWindData (w0 :: w1 :: rest) targetTime with
    | (some before, some after) => interpolateBetweenWindPoints before after targetTime
    | (before, after) =>
      let closest := (before.orElse fun _ => after).getD w0
      { wind_speed := closest.wind_speed, wind_direction := closest.wind_direction }

/-! ## Geodesy and kinematics (source: toRadians, toDegrees,
haversineDistance, calculateBearing, calculateSpeed,
calculatePointBearing, calculatePointMetrics, calculateSpeedAndBearing) -/

/-- Source `toRadians(degrees)`. -/
noncomputable def toRadians (degrees : ℝ) : ℝ :=
  degrees * (Real.pi / 180)

/-- Source `toDegrees(radians)`. -/
noncomputable def toDegrees (radians : ℝ) : ℝ :=
  radians * (180 / Real.pi)

/-- JavaScript number truncation toward zero, as performed by the `%`
operator on its quotient. -/
noncomputable def jsTrunc (x : ℝ) : ℤ :=
  if 0 ≤ x then ⌊x⌋ else ⌈x⌉

/-- The JavaScript `%` operator on finite numbers: the truncated
remainder `x - y * trunc(x / y)`. -/
noncomputable def jsRem (x y : ℝ) : ℝ :=
  x - y * (jsTrunc (x / y) : ℝ)

/-- Model of `Math.atan2(y, x)`: the argument of the complex number `x + y·i`,
in `(-π, π]`, with `atan2 0 0 = 0` as in JS. -/
noncomputable def atan2 (y x : ℝ) : ℝ :=
  Complex.arg ⟨x, y⟩

/-- Source `haversineDistance(lat1, lon1, lat2, lon2)` (meters), with
Earth radius 6371000 m. -/
noncomputable def haversineDistance (lat1 lon1 lat2 lon2 : ℝ) : ℝ :=
  let R : ℝ := 6371000
  let dLat := toRadians (lat2 - lat1)
  let dLon := toRadians (lon2 - lon1)
  let a := Real.sin (dLat / 2) * Real.sin (dLat / 2) +
    Real.cos (toRadians lat1) * Real.cos (toRadians lat2) *
      Real.sin (dLon / 2) * Real.sin (dLon / 2)
  let c := 2 * atan2 (Real.sqrt a) (Real.sqrt (1 - a))
  R * c

/-- Source `calculateBearing(lat1, lon1, lat2, lon2)`: forward azimuth,
`(toDegrees(atan2(y, x)) + 360) % 360` with the JS `%`. -/
noncomputable def calculateBearing (lat1 lon1 lat2 lon2 : ℝ) : ℝ :=
  let dLon := toRadians (lon2 - lon1)
  let lat1Rad := toRadians lat1
  let lat2Rad := toRadians lat2
  let y := Real.sin dLon * Real.cos lat2Rad
  let x := Real.cos lat1Rad * Real.sin lat2Rad -
    Real.sin lat1Rad * Real.cos lat2Rad * Real.cos dLon
  jsRem (toDegrees (atan2 y x) + 360) 360

/-- Source `CONSTANTS.MAX_REALISTIC_SPEED` (km/h). -/
noncomputable def MAX_REALISTIC_SPEED : ℝ := 100

/-- Source `CONSTANTS.MIN_MOVEMENT_THRESHOLD` (meters). -/
noncomputable def MIN_MOVEMENT_THRESHOLD : ℝ := 1

/-- One element of `this.gpxData` with every field the pipeline reads
or writes: coordinates and epoch-millisecond timestamp from ingestion,
the three kinematics fields, and the three wind fields added by
enrichment.  (A field holds `0` before the pass that assigns it, as an
arbitrary stand-in for JS `undefined`; the kinematics and wind passes
overwrite their fields unconditionally.) -/
structure GPXPoint where
  lat : ℝ
  lon : ℝ
  timeMs : ℤ
  speed_kmh : ℝ
  bearing : ℝ
  distance_km : ℝ
  wind_speed : ℝ
  wind_direction : ℝ
  wind_faced : ℝ

/-- Source `calculateSpeed(distance, timeDiff, prevSpeed)`.  The JS
`prevSpeed || 20` replaces a falsy previous speed — for a number,
exactly `0` — by 20. -/
noncomputable def calculateSpeed (distance timeDiff prevSpeed : ℝ) : ℝ :=
  if timeDiff ≤ 0 then prevSpeed
  else if distance ≤ 0 then 0
  else if MAX_REALISTIC_SPEED < distance / timeDiff * 3.6 then
    (if prevSpeed = 0 then 20 else prevSpeed)
  else distance / timeDiff * 3.6

/-- Source `calculatePointBearing(prev, curr, distance)`.  The JS
`prev.bearing || 0` maps a falsy numeric bearing (`0`) to `0`, i.e. it
is the identity on real-valued bearings. -/
noncomputable def calculatePointBearing (prev curr : GPXPoint) (distance : ℝ) : ℝ :=
  if MIN_MOVEMENT_THRESHOLD < distance then
    calculateBearing prev.lat prev.lon curr.lat curr.lon
  else prev.bearing

/-- Source `calculatePointMetrics(prev, curr, index, cumulativeDistance)`:
adds the leg distance to the running total, converts the timestamp
difference to seconds, and assigns `distance_km`, `speed_kmh`, and
`bearing` onto the current point. -/
noncomputable def calculatePointMetrics (prev curr : GPXPoint) (cumulativeDistance : ℝ) :
    GPXPoint :=
  let distance := haversineDistance prev.lat prev.lon curr.lat curr.lon
  let cum := cumulativeDistance + distance
  let timeDiff := ((curr.timeMs - prev.timeMs : ℤ) : ℝ) / 1000
  { curr with
    distance_km := cum / 1000
    speed_kmh := calculateSpeed distance timeDiff prev.speed_kmh
    bearing := calculatePointBearing prev curr distance }

/-- The `i > 0` body of the loop in source `calculateSpeedAndBearing`:
process each remaining point against the previously processed one,
re-deriving the running cumulative distance from
`curr.distance_km * 1000` exactly as the source does. -/
noncomputable def calculateSpeedAndBearingLoop (prev : GPXPoint) (cumulativeDistance : ℝ) :
    List GPXPoint → List GPXPoint
  | [] => []
  | curr :: rest =>
    let c := calculatePointMetrics prev curr cumulativeDistance
    c :: calculateSpeedAndBearingLoop c (c.distance_km * 1000) rest

/-- Source `calculateSpeedAndBearing()`: initialize the first point to
`speed_kmh = 0, bearing = 0, distance_km = 0`, then walk the rest of
the ordered track once. -/
noncomputable def calculateSpeedAndBearing : List GPXPoint → List GPXPoint
  | [] => []
  | p :: rest =>
    let p0 : GPXPoint := { p with speed_kmh := 0, bearing := 0, distance_km := 0 }
    p0 :: calculateSpeedAndBearingLoop p0 0 rest

/-! ## Relative wind (source: calculateRelativeWind) -/

/-- The `relativeAngle` computed in source `calculateRelativeWind`:
`((windFromDeg - cyclistDirection + 180) % 360) - 180` with the JS `%`. -/
noncomputable def relativeAngle (windFromDeg cyclistDirection : ℝ) : ℝ :=
  jsRem (windFromDeg - cyclistDirection + 180) 360 - 180

/-- Source `calculateRelativeWind()`: set each point's `wind_faced` to
`point.wind_speed * Math.cos(toRadians(relativeAngle))`. -/
noncomputable def calculateRelativeWind (gpxData : List GPXPoint) : List GPXPoint :=
  gpxData.map fun point =>
    { point with
      wind_faced :=
        point.wind_speed *
          Real.cos (toRadians (relativeAngle point.wind_direction point.bearing)) }

/-! ## Route statistics (source: calculateTotalDistance,
calculateRouteStatistics) -/

/-- The summed haversine loop of source `calculateTotalDistance`
(meters, before the final division by 1000). -/
noncomputable def totalDistanceMeters : List GPXPoint → ℝ
  | a :: b :: rest => haversineDistance a.lat a.lon b.lat b.lon + totalDistanceMeters (b :: rest)
  | _ => 0

/-- Source `calculateTotalDistance()`: consecutive-pair haversine sum
over `this.gpxData`, converted to kilometers. -/
noncomputable def calculateTotalDistance (gpxData : List GPXPoint) : ℝ :=
  totalDistanceMeters gpxData / 1000

/-- Source `calculateRouteStatistics()` return record. -/
structure RouteStatistics where
  totalDistance : ℝ
  totalTime : ℝ
  avgSpeed : ℝ
  avgWindFaced : ℝ
  maxHeadwind : ℝ
  maxTailwind : ℝ
  avgWindSpeed : ℝ
  headwindPercentage : ℝ

/-- Source `calculateRouteStatistics()`.  The source assumes a
non-empty `this.gpxData` (it reads `gpxData[length-1]` and spreads the
mapped arrays into `Math.max`/`Math.min`), so the track is passed as a
head plus tail; `Math.max(...xs)`/`Math.min(...xs)` over the non-empty
spread become folds over the mapped head and tail. -/
noncomputable def calculateRouteStatistics (q : GPXPoint) (qs : List GPXPoint) :
    RouteStatistics :=
  let gpxData := q :: qs
  let last := gpxData.getLastD q
  let speeds := (gpxData.map fun p => p.speed_kmh).filter fun s => decide (0 < s)
  let windFacedValues := gpxData.map fun p => p.wind_faced
  let windSpeedValues := gpxData.map fun p => p.wind_speed
  { totalDistance := calculateTotalDistance gpxData
    totalTime := ((last.timeMs - q.timeMs : ℤ) : ℝ) / (1000 * 60 * 60)
    avgSpeed := if 0 < speeds.length then speeds.sum / (speeds.length : ℝ) else 0
    avgWindFaced := windFacedValues.sum / (windFacedValues.length : ℝ)
    maxHeadwind := (qs.map fun p => max 0 p.wind_faced).foldl max (max 0 q.wind_faced)
    maxTailwind := |(qs.map fun p => min 0 p.wind_faced).foldl min (min 0 q.wind_faced)|
    avgWindSpeed := windSpeedValues.sum / (windSpeedValues.length : ℝ)
    headwindPercentage :=
      (((windFacedValues.filter fun w => decide (0 ≤ w)).length : ℝ) /
        (windFacedValues.length : ℝ)) * 100 }

/-- The fields of a `GPXPoint` that `calculateSpeedAndBearing` reads
from the current point or carries through unchanged — everything except
the three fields the pass overwrites. -/
def gpxKey (p : GPXPoint) : ℝ × ℝ × ℤ × ℝ × ℝ × ℝ :=
  (p.lat, p.lon, p.timeMs, p.wind_speed, p.wind_direction, p.wind_faced)

/-- The coordinate pair of a point, the only data the distance sums
read. -/
def latlon (p : GPXPoint) : ℝ × ℝ :=
  (p.lat, p.lon)

/-! ## Claims about interpolation fallback (C2) -/

/-- Claim C2 counterexample: with samples at times 10 and 20 and target
time 30 (outside the span), the nearest preceding sample is the one at
time 20 and it exists, so the claim predicts its values `(7, 90)`; the
code finds no bracketing pair, leaves both `before` and `after` null,
and falls through to the first sample's values `(5, 0)`. -/
theorem interpolate_no_bracket_counterexample :
    interpolateWindForPoint [⟨10, 5, 0⟩, ⟨20, 7, 90⟩] 30 ≠ ⟨7, 90⟩ ∧
      interpolateWindForPoint [⟨10, 5, 0⟩, ⟨20, 7, 90⟩] 30 = ⟨5, 0⟩ := by
  decide

/-- Claim C2 (amended): when there are at least two wind samples and no
bracketing pair is found for the target time, the point always receives
the first sample's values — `before` and `after` are only ever assigned
together in `findSurroundingWindData`, so the nearest-preceding/following
fallback of `before || after` is unreachable. -/
theorem interpolate_no_bracket_first_sample (w0 w1 : WindSample) (ws : List WindSample)
    (t : ℚ) (h : findSurroundingWindData (w0 :: w1 :: ws) t = (none, none)) :
    interpolateWindForPoint (w0 :: w1 :: ws) t = ⟨w0.wind_speed, w0.wind_direction⟩ := by
  simp only [interpolateWindForPoint, h]
  rfl

/-- Witness for `interpolate_no_bracket_first_sample` at a concrete
no-bracket input. -/
theorem interpolate_no_bracket_first_sample_witness :
    interpolateWindForPoint [⟨0, 1, 2⟩, ⟨4, 3, 6⟩] 9 = ⟨1, 2⟩ :=
  interpolate_no_bracket_first_sample ⟨0, 1, 2⟩ ⟨4, 3, 6⟩ [] 9 (by decide)

/-! ## Claims about ingestion validation (C4, C8) -/

/-- Claim C4 counterexample: a point with `lat = 0` is dropped by the
coordinate check, so zero coordinate-valid points have a valid post-2000
timestamp (vacuously) — the claim's condition for the missing-timestamps
error — yet ingestion raises the no-valid-points error instead. -/
theorem readGPXFile_error_precedence_counterexample :
    hasValidTimes (extractGPXPoints [⟨0, 0, 0, some ⟨0, 2020⟩⟩]) = false ∧
      readGPXFile [⟨0, 0, 0, some ⟨0, 2020⟩⟩] = Except.error IngestError.noValidPoints ∧
      readGPXFile [⟨0, 0, 0, some ⟨0, 2020⟩⟩] ≠ Except.error IngestError.missingTimestamps := by
  refine ⟨rfl, rfl, fun h => ?_⟩
  exact absurd (Except.error.inj h) (by decide)

/-- Claim C4 (amended): ingestion raises the missing-timestamps error
iff at least one point survives the coordinate check and none of the
surviving points has a parseable timestamp with year > 2000 (when no
point survives the coordinate check, the no-valid-points error takes
precedence).  In particular a 5-point track with valid coordinates and
no time elements raises it. -/
theorem readGPXFile_missingTimestamps_iff :
    (∀ raw : List RawPoint,
        readGPXFile raw = Except.error IngestError.missingTimestamps ↔
          extractGPXPoints raw ≠ [] ∧ hasValidTimes (extractGPXPoints raw) = false) ∧
      readGPXFile [⟨1, 1, 0, none⟩, ⟨2, 1, 0, none⟩, ⟨3, 1, 0, none⟩,
          ⟨4, 1, 0, none⟩, ⟨5, 1, 0, none⟩] =
        Except.error IngestError.missingTimestamps := by
  constructor
  · intro raw
    unfold readGPXFile validateTimestamps
    by_cases h0 : (extractGPXPoints raw).length = 0
    · rw [List.length_eq_zero] at h0
      simp [h0]
    · have hne : extractGPXPoints raw ≠ [] := by
        intro hnil
        exact h0 (by rw [hnil]; rfl)
      by_cases hv : hasValidTimes (extractGPXPoints raw) = true
      · simp [h0, hv]
      · simp [h0, hv, hne, Bool.not_eq_true] at hv ⊢
  · rfl

/-- Claim C8: a latitude or longitude equal to exactly 0 is falsy in
the JS conjunction `lat && lon && …`, so `isValidCoordinate` rejects it
regardless of range, and a track made only of such points is rejected
by ingestion as containing no valid GPS points. -/
theorem isValidCoordinate_zero_dropped :
    (∀ lon : ℚ, isValidCoordinate 0 lon = false) ∧
      (∀ lat : ℚ, isValidCoordinate lat 0 = false) ∧
      ∀ raw : List RawPoint, (∀ p ∈ raw, p.lat = 0 ∨ p.lon = 0) →
        readGPXFile raw = Except.error IngestError.noValidPoints := by
  refine ⟨fun lon => by simp [isValidCoordinate], fun lat => by simp [isValidCoordinate], ?_⟩
  intro raw hall
  have hnil : extractGPXPoints raw = [] := by
    rw [extractGPXPoints, List.filter_eq_nil_iff]
    intro p hp
    rcases hall p hp with h | h <;> simp [isValidCoordinate, h]
  unfold readGPXFile
  rw [hnil]
  rfl

/-- Witness for `isValidCoordinate_zero_dropped` at a concrete
equator-latitude track. -/
theorem isValidCoordinate_zero_dropped_witness :
    readGPXFile [⟨0, 50, 0, none⟩] = Except.error IngestError.noValidPoints :=
  isValidCoordinate_zero_dropped.2.2 [⟨0, 50, 0, none⟩]
    (by intro p hp; rw [List.mem_singleton] at hp; rw [hp]; exact Or.inl rfl)

/-! ## Claims about the speed rule (C3) -/

/-- Claim C3 counterexample: with a computed speed of 3600 km/h (1000 m
in 1 s) and a set-but-zero previous speed, the claim says the previous
speed 0 is substituted, but `prevSpeed || 20` treats the numeric 0 as
falsy and yields the 20 km/h default instead. -/
theorem calculateSpeed_zero_prev_counterexample :
    calculateSpeed 1000 1 0 = 20 ∧ (20 : ℝ) ≠ 0 := by
  constructor
  · unfold calculateSpeed MAX_REALISTIC_SPEED
    rw [if_neg (by norm_num), if_neg (by norm_num), if_pos (by norm_num), if_pos rfl]
  · norm_num

/-- Claim C3 (amended): with `dt ≤ 0` the previous speed is carried
over unrecomputed; with `dt > 0`, a computed speed `(d/dt)·3.6` above
the 100 km/h ceiling is replaced by the previous speed when that is
nonzero and by the 20 km/h default when the previous speed is zero or
unset (JS falsiness conflates the two), and a computed positive speed
at or below the ceiling is kept as `(d/dt)·3.6`. -/
theorem calculateSpeed_clamp (d dt prev : ℝ) :
    (dt ≤ 0 → calculateSpeed d dt prev = prev) ∧
      (0 < dt → MAX_REALISTIC_SPEED < d / dt * 3.6 →
        calculateSpeed d dt prev = if prev = 0 then 20 else prev) ∧
      (0 < dt → 0 < d → d / dt * 3.6 ≤ MAX_REALISTIC_SPEED →
        calculateSpeed d dt prev = d / dt * 3.6) := by
  refine ⟨fun h => ?_, fun h1 h2 => ?_, fun h1 h2 h3 => ?_⟩
  · rw [calculateSpeed, if_pos h]
  · have hd : ¬d ≤ 0 := by
      intro hd0
      have hq : d / dt ≤ 0 := div_nonpos_iff.mpr (Or.inr ⟨hd0, h1.le⟩)
      have : d / dt * 3.6 ≤ 0 := by nlinarith
      rw [MAX_REALISTIC_SPEED] at h2
      linarith
    rw [calculateSpeed, if_neg (not_le.mpr h1), if_neg hd, if_pos h2]
  · rw [calculateSpeed, if_neg (not_le.mpr h1), if_neg (not_le.mpr h2),
      if_neg (not_lt.mpr h3)]

/-- Witness for `calculateSpeed_clamp`: a 3600 km/h computed speed with
nonzero previous speed 5 is replaced by 5. -/
theorem calculateSpeed_clamp_witness : calculateSpeed 1000 1 5 = 5 := by
  have h := (calculateSpeed_clamp 1000 1 5).2.1 (by norm_num)
    (by rw [MAX_REALISTIC_SPEED]; norm_num)
  rw [h, if_neg (by norm_num)]

/-! ## Claims about the wind-exposure formula (C1) -/

/-- Because `((x + 180) % 360) - 180` shifts its input by a whole number of
turns, so the cosine of the relative angle equals the cosine of the raw
direction difference. -/
theorem cos_toRadians_relativeAngle (d b : ℝ) :
    Real.cos (toRadians (relativeAngle d b)) = Real.cos (toRadians (d - b)) := by
  have h : toRadians (relativeAngle d b) =
      toRadians (d - b) + (-(jsTrunc ((d - b + 180) / 360)) : ℤ) * (2 * Real.pi) := by
    unfold toRadians relativeAngle jsRem
    push_cast
    ring
  rw [h, Real.cos_add_int_mul_two_pi]

/-- Evaluation `relativeAngle 0 0 = 0` (headwind case). -/
theorem relativeAngle_head : relativeAngle 0 0 = 0 := by
  have h : jsTrunc ((0 - 0 + 180 : ℝ) / 360) = 0 := by
    unfold jsTrunc
    rw [if_pos (by norm_num)]
    exact Int.floor_eq_zero_iff.mpr (by rw [Set.mem_Ico]; norm_num)
  unfold relativeAngle jsRem
  rw [h]
  norm_num

/-- Evaluation `relativeAngle 180 0 = -180` (tailwind case). -/
theorem relativeAngle_tail : relativeAngle 180 0 = -180 := by
  have h : jsTrunc ((180 - 0 + 180 : ℝ) / 360) = 1 := by
    unfold jsTrunc
    rw [if_pos (by norm_num), show ((180 - 0 + 180 : ℝ) / 360) = 1 by norm_num]
    exact Int.floor_one
  unfold relativeAngle jsRem
  rw [h]
  norm_num

/-- Evaluation `relativeAngle 90 0 = 90` (crosswind case). -/
theorem relativeAngle_cross : relativeAngle 90 0 = 90 := by
  have h : jsTrunc ((90 - 0 + 180 : ℝ) / 360) = 0 := by
    unfold jsTrunc
    rw [if_pos (by norm_num)]
    exact Int.floor_eq_zero_iff.mpr (by rw [Set.mem_Ico]; norm_num)
  unfold relativeAngle jsRem
  rw [h]
  norm_num

/-- Claim C1: every enriched point's `wind_faced` equals
`wind_speed · cos(radians(wind_direction − bearing))`, and for any point
with bearing 0 and wind speed 20: wind from 0° gives +20 (headwind),
wind from 180° gives −20 (tailwind), wind from 90° gives 0 (crosswind,
exactly 0 in real arithmetic). -/
theorem calculateRelativeWind_spec :
    (∀ gpxData : List GPXPoint,
        calculateRelativeWind gpxData = gpxData.map fun p =>
          { p with
            wind_faced :=
              p.wind_speed * Real.cos (toRadians (p.wind_direction - p.bearing)) }) ∧
      (∀ lat lon tMs sk dk wf0 : _,
        calculateRelativeWind [⟨lat, lon, tMs, sk, 0, dk, 20, 0, wf0⟩] =
          [⟨lat, lon, tMs, sk, 0, dk, 20, 0, 20⟩]) ∧
      (∀ lat lon tMs sk dk wf0 : _,
        calculateRelativeWind [⟨lat, lon, tMs, sk, 0, dk, 20, 180, wf0⟩] =
          [⟨lat, lon, tMs, sk, 0, dk, 20, 180, -20⟩]) ∧
      (∀ lat lon tMs sk dk wf0 : _,
        calculateRelativeWind [⟨lat, lon, tMs, sk, 0, dk, 20, 90, wf0⟩] =
          [⟨lat, lon, tMs, sk, 0, dk, 20, 90, 0⟩]) := by
  refine ⟨fun gpxData => ?_, fun lat lon tMs sk dk wf0 => ?_, fun lat lon tMs sk dk wf0 => ?_,
    fun lat lon tMs sk dk wf0 => ?_⟩
  · unfold calculateRelativeWind
    congr 1
    funext p
    rw [cos_toRadians_relativeAngle]
  · have hc : (20 : ℝ) * Real.cos (toRadians (relativeAngle 0 0)) = 20 := by
      rw [relativeAngle_head, show toRadians 0 = 0 by rw [toRadians, zero_mul],
        Real.cos_zero, mul_one]
    simp only [calculateRelativeWind, List.map_cons, List.map_nil]
    rw [show ((⟨lat, lon, tMs, sk, 0, dk, 20, 0, wf0⟩ : GPXPoint).wind_speed *
        Real.cos (toRadians (relativeAngle
          (⟨lat, lon, tMs, sk, 0, dk, 20, 0, wf0⟩ : GPXPoint).wind_direction
          (⟨lat, lon, tMs, sk, 0, dk, 20, 0, wf0⟩ : GPXPoint).bearing)) : ℝ) = 20 from hc]
  · have hc : (20 : ℝ) * Real.cos (toRadians (relativeAngle 180 0)) = -20 := by
      rw [relativeAngle_tail,
        show toRadians (-180) = -Real.pi by rw [toRadians]; ring,
        Real.cos_neg, Real.cos_pi]
      norm_num
    simp only [calculateRelativeWind, List.map_cons, List.map_nil]
    rw [show ((⟨lat, lon, tMs, sk, 0, dk, 20, 180, wf0⟩ : GPXPoint).wind_speed *
        Real.cos (toRadians (relativeAngle
          (⟨lat, lon, tMs, sk, 0, dk, 20, 180, wf0⟩ : GPXPoint).wind_direction
          (⟨lat, lon, tMs, sk, 0, dk, 20, 180, wf0⟩ : GPXPoint).bearing)) : ℝ) = -20 from hc]
  · have hc : (20 : ℝ) * Real.cos (toRadians (relativeAngle 90 0)) = 0 := by
      rw [relativeAngle_cross,
        show toRadians 90 = Real.pi / 2 by rw [toRadians]; ring,
        Real.cos_pi_div_two, mul_zero]
    simp only [calculateRelativeWind, List.map_cons, List.map_nil]
    rw [show ((⟨lat, lon, tMs, sk, 0, dk, 20, 90, wf0⟩ : GPXPoint).wind_speed *
        Real.cos (toRadians (relativeAngle
          (⟨lat, lon, tMs, sk, 0, dk, 20, 90, wf0⟩ : GPXPoint).wind_direction
          (⟨lat, lon, tMs, sk, 0, dk, 20, 90, wf0⟩ : GPXPoint).bearing)) : ℝ) = 0 from hc]

/-! ## Helper lemmas for the kinematics pass -/

/-- The haversine distance is non-negative: its angle is
`2 · atan2(√a, √(1−a))` with a non-negative ordinate. -/
theorem haversineDistance_nonneg (lat1 lon1 lat2 lon2 : ℝ) :
    0 ≤ haversineDistance lat1 lon1 lat2 lon2 := by
  have h : ∀ x : ℝ, 0 ≤ Complex.arg ⟨Real.sqrt (1 - x), Real.sqrt x⟩ := fun x =>
    Complex.arg_nonneg_iff.mpr (Real.sqrt_nonneg x)
  show (0 : ℝ) ≤ 6371000 * (2 *
    Complex.arg
      ⟨Real.sqrt (1 -
          (Real.sin (toRadians (lat2 - lat1) / 2) * Real.sin (toRadians (lat2 - lat1) / 2) +
            Real.cos (toRadians lat1) * Real.cos (toRadians lat2) *
              Real.sin (toRadians (lon2 - lon1) / 2) * Real.sin (toRadians (lon2 - lon1) / 2))),
        Real.sqrt
          (Real.sin (toRadians (lat2 - lat1) / 2) * Real.sin (toRadians (lat2 - lat1) / 2) +
            Real.cos (toRadians lat1) * Real.cos (toRadians lat2) *
              Real.sin (toRadians (lon2 - lon1) / 2) * Real.sin (toRadians (lon2 - lon1) / 2))⟩)
  exact mul_nonneg (by norm_num) (mul_nonneg (by norm_num) (h _))

/-- The function `calculatePointMetrics` only rewrites the three kinematics fields:
the key fields pass through unchanged. -/
theorem gpxKey_calculatePointMetrics (prev c : GPXPoint) (cum : ℝ) :
    gpxKey (calculatePointMetrics prev c cum) = gpxKey c := rfl

/-- The kinematics loop preserves the key fields pointwise. -/
theorem gpxKey_map_loop (l : List GPXPoint) : ∀ (prev : GPXPoint) (cum : ℝ),
    (calculateSpeedAndBearingLoop prev cum l).map gpxKey = l.map gpxKey := by
  induction l with
  | nil => intro prev cum; rfl
  | cons c rest ih =>
    intro prev cum
    simp only [calculateSpeedAndBearingLoop, List.map_cons]
    rw [gpxKey_calculatePointMetrics, ih]

/-- The function `calculatePointMetrics` depends on the current point only through
its key fields. -/
theorem calculatePointMetrics_congr (prev : GPXPoint) (cum : ℝ) {c₁ c₂ : GPXPoint}
    (h : gpxKey c₁ = gpxKey c₂) :
    calculatePointMetrics prev c₁ cum = calculatePointMetrics prev c₂ cum := by
  cases c₁
  cases c₂
  simp only [gpxKey, Prod.mk.injEq] at h
  obtain ⟨h1, h2, h3, h4, h5, h6⟩ := h
  subst h1 h2 h3 h4 h5 h6
  rfl

/-- The kinematics loop depends on the unprocessed points only through
their key fields. -/
theorem calculateSpeedAndBearingLoop_congr :
    ∀ {l₁ l₂ : List GPXPoint} (prev : GPXPoint) (cum : ℝ),
      l₁.map gpxKey = l₂.map gpxKey →
      calculateSpeedAndBearingLoop prev cum l₁ = calculateSpeedAndBearingLoop prev cum l₂ := by
  intro l₁
  induction l₁ with
  | nil =>
    intro l₂ prev cum h
    cases l₂ with
    | nil => rfl
    | cons b t => simp at h
  | cons c₁ r₁ ih =>
    intro l₂ prev cum h
    cases l₂ with
    | nil => simp at h
    | cons c₂ r₂ =>
      simp only [List.map_cons, List.cons.injEq] at h
      obtain ⟨hc, hr⟩ := h
      have hcc := calculatePointMetrics_congr prev cum hc
      simp only [calculateSpeedAndBearingLoop]
      rw [hcc]
      exact congrArg _ (ih _ _ hr)

/-- Claim C6: the kinematics pass is idempotent — running
`calculateSpeedAndBearing` again on its own output (same coordinates and
timestamps, already-assigned kinematics fields) reproduces that output
exactly, with no double-accumulation of cumulative distance. -/
theorem calculateSpeedAndBearing_idempotent (pts : List GPXPoint) :
    calculateSpeedAndBearing (calculateSpeedAndBearing pts) = calculateSpeedAndBearing pts := by
  cases pts with
  | nil => rfl
  | cons p rest =>
    show calculateSpeedAndBearing
        ({ p with speed_kmh := 0, bearing := 0, distance_km := 0 } ::
          calculateSpeedAndBearingLoop
            { p with speed_kmh := 0, bearing := 0, distance_km := 0 } 0 rest) = _
    simp only [calculateSpeedAndBearing]
    congr 1
    exact calculateSpeedAndBearingLoop_congr _ _ (gpxKey_map_loop rest _ _)

/-! ## Monotone cumulative distance (C5) -/

/-- Along the kinematics loop, starting from a processed point whose
stored cumulative distance matches the running total, the stored
`distance_km` values never decrease. -/
theorem loop_distance_chain (l : List GPXPoint) : ∀ prev : GPXPoint,
    List.Chain' (· ≤ ·)
      (prev.distance_km ::
        (calculateSpeedAndBearingLoop prev (prev.distance_km * 1000) l).map
          fun p => p.distance_km) := by
  induction l with
  | nil => intro prev; exact List.chain'_singleton _
  | cons c rest ih =>
    intro prev
    simp only [calculateSpeedAndBearingLoop, List.map_cons]
    rw [List.chain'_cons]
    constructor
    · show prev.distance_km ≤
        (prev.distance_km * 1000 + haversineDistance prev.lat prev.lon c.lat c.lon) / 1000
      have hd := haversineDistance_nonneg prev.lat prev.lon c.lat c.lon
      have hsplit : (prev.distance_km * 1000 + haversineDistance prev.lat prev.lon c.lat c.lon)
          / 1000 = prev.distance_km + haversineDistance prev.lat prev.lon c.lat c.lon / 1000 := by
        ring
      rw [hsplit]
      have : 0 ≤ haversineDistance prev.lat prev.lon c.lat c.lon / 1000 := by positivity
      linarith
    · exact ih (calculatePointMetrics prev c (prev.distance_km * 1000))

/-- Claim C5: after the kinematics pass, `distance_km` is non-decreasing
across consecutive points, and it is 0 at the first point (the
`head?.getD 0` of the mapped list, which also covers the empty track). -/
theorem distance_km_monotone (pts : List GPXPoint) :
    List.Chain' (· ≤ ·) ((calculateSpeedAndBearing pts).map fun p => p.distance_km) ∧
      (((calculateSpeedAndBearing pts).map fun p => p.distance_km).head?.getD 0) = 0 := by
  cases pts with
  | nil => exact ⟨List.chain'_nil, rfl⟩
  | cons p rest =>
    constructor
    · simp only [calculateSpeedAndBearing, List.map_cons]
      have h := loop_distance_chain rest { p with speed_kmh := 0, bearing := 0, distance_km := 0 }
      have hz : ({ p with speed_kmh := 0, bearing := 0, distance_km := 0 } :
          GPXPoint).distance_km * 1000 = 0 := by
        show (0 : ℝ) * 1000 = 0
        norm_num
      rw [hz] at h
      exact h
    · rfl

/-! ## Speed stays in [0, 100] (C9) -/

/-- The function `calculateSpeed` maps a previous speed in `[0, MAX]` to a result in
`[0, MAX]`: each branch returns the previous speed, 0, 20, or a freshly
computed positive value bounded by the ceiling test. -/
theorem calculateSpeed_bounds (d dt : ℝ) {prev : ℝ} (h0 : 0 ≤ prev)
    (h1 : prev ≤ MAX_REALISTIC_SPEED) :
    0 ≤ calculateSpeed d dt prev ∧ calculateSpeed d dt prev ≤ MAX_REALISTIC_SPEED := by
  rw [MAX_REALISTIC_SPEED] at h1 ⊢
  unfold calculateSpeed MAX_REALISTIC_SPEED
  split_ifs with ht hd hmax hz
  · exact ⟨h0, h1⟩
  · norm_num
  · norm_num
  · exact ⟨h0, h1⟩
  · have hdt : 0 < dt := lt_of_not_le ht
    have hdd : 0 < d := lt_of_not_le hd
    constructor
    · have : 0 < d / dt := div_pos hdd hdt
      nlinarith
    · exact le_of_not_lt hmax

/-- Along the kinematics loop, all produced speeds stay in `[0, MAX]`
provided the previous processed point's speed does. -/
theorem loop_speed_bounds (l : List GPXPoint) : ∀ (prev : GPXPoint) (cum : ℝ),
    0 ≤ prev.speed_kmh → prev.speed_kmh ≤ MAX_REALISTIC_SPEED →
    ∀ q ∈ calculateSpeedAndBearingLoop prev cum l,
      0 ≤ q.speed_kmh ∧ q.speed_kmh ≤ MAX_REALISTIC_SPEED := by
  induction l with
  | nil =>
    intro prev cum _ _ q hq
    simp only [calculateSpeedAndBearingLoop, List.not_mem_nil] at hq
  | cons c rest ih =>
    intro prev cum hp0 hp1 q hq
    simp only [calculateSpeedAndBearingLoop, List.mem_cons] at hq
    have hc : 0 ≤ (calculatePointMetrics prev c cum).speed_kmh ∧
        (calculatePointMetrics prev c cum).speed_kmh ≤ MAX_REALISTIC_SPEED :=
      calculateSpeed_bounds _ _ hp0 hp1
    rcases hq with rfl | hq
    · exact hc
    · exact ih _ _ hc.1 hc.2 q hq

/-- Claim C9: for a time-ordered track, after the kinematics pass every
point's `speed_kmh` lies in `[0, 100]` — the first point is initialized
to 0, and every subsequent speed is a fresh value at most the ceiling,
0, the inductively bounded previous speed, or the 20 km/h fallback. -/
theorem speed_kmh_in_range (pts : List GPXPoint)
    (hord : List.Chain' (fun a b => a.timeMs ≤ b.timeMs) pts) :
    ∀ q ∈ calculateSpeedAndBearing pts, 0 ≤ q.speed_kmh ∧ q.speed_kmh ≤ 100 := by
  cases pts with
  | nil =>
    intro q hq
    simp only [calculateSpeedAndBearing, List.not_mem_nil] at hq
  | cons p rest =>
    intro q hq
    simp only [calculateSpeedAndBearing, List.mem_cons] at hq
    rcases hq with rfl | hq
    · exact ⟨le_refl 0, by norm_num⟩
    · exact loop_speed_bounds rest _ 0 (le_refl 0) (by rw [MAX_REALISTIC_SPEED]; norm_num) q hq

/-- Witness for `speed_kmh_in_range` on a concrete two-point
time-ordered track. -/
theorem speed_kmh_in_range_witness :
    List.Chain' (fun a b : GPXPoint => a.timeMs ≤ b.timeMs)
        [⟨0, 0, 0, 0, 0, 0, 0, 0, 0⟩, ⟨1, 1, 60000, 0, 0, 0, 0, 0, 0⟩] ∧
      ∀ q ∈ calculateSpeedAndBearing
          [(⟨0, 0, 0, 0, 0, 0, 0, 0, 0⟩ : GPXPoint), ⟨1, 1, 60000, 0, 0, 0, 0, 0, 0⟩],
        0 ≤ q.speed_kmh ∧ q.speed_kmh ≤ 100 := by
  have hc : List.Chain' (fun a b : GPXPoint => a.timeMs ≤ b.timeMs)
      [⟨0, 0, 0, 0, 0, 0, 0, 0, 0⟩, ⟨1, 1, 60000, 0, 0, 0, 0, 0, 0⟩] := by
    rw [List.chain'_cons]
    exact ⟨by norm_num, List.chain'_singleton _⟩
  exact ⟨hc, speed_kmh_in_range _ hc⟩

/-! ## Equivalence of the two distance computations (C10) -/

/-- A point's coordinate pair is a projection of its key fields. -/
theorem map_latlon_eq_map_gpxKey (l : List GPXPoint) :
    l.map latlon = (l.map gpxKey).map fun k => (k.1, k.2.1) := by
  rw [List.map_map]
  rfl

/-- The consecutive-pair distance sum reads only the coordinate pairs. -/
theorem totalDistanceMeters_congr : ∀ {l₁ l₂ : List GPXPoint},
    l₁.map latlon = l₂.map latlon → totalDistanceMeters l₁ = totalDistanceMeters l₂ := by
  intro l₁
  induction l₁ with
  | nil =>
    intro l₂ h
    cases l₂ with
    | nil => rfl
    | cons b t => simp at h
  | cons a r₁ ih =>
    intro l₂ h
    cases l₂ with
    | nil => simp at h
    | cons b r₂ =>
      simp only [List.map_cons, List.cons.injEq] at h
      obtain ⟨hab, hr⟩ := h
      simp only [latlon, Prod.mk.injEq] at hab
      obtain ⟨hlat, hlon⟩ := hab
      cases r₁ with
      | nil =>
        cases r₂ with
        | nil => rfl
        | cons b2 t2 => simp at hr
      | cons a2 t1 =>
        cases r₂ with
        | nil => simp at hr
        | cons b2 t2 =>
          have h2 : latlon a2 = latlon b2 := by
            simp only [List.map_cons, List.cons.injEq] at hr
            exact hr.1
          simp only [latlon, Prod.mk.injEq] at h2
          obtain ⟨hlat2, hlon2⟩ := h2
          show haversineDistance a.lat a.lon a2.lat a2.lon + totalDistanceMeters (a2 :: t1) =
            haversineDistance b.lat b.lon b2.lat b2.lon + totalDistanceMeters (b2 :: t2)
          rw [hlat, hlon, hlat2, hlon2, ih hr]

/-- Along the kinematics loop, the last stored `distance_km` is the
running total plus the consecutive-pair distance sum from the previous
processed point, divided by 1000. -/
theorem loop_last_distance (l : List GPXPoint) : ∀ (prev : GPXPoint) (cum : ℝ), l ≠ [] →
    ((calculateSpeedAndBearingLoop prev cum l).map fun p => p.distance_km).getLast? =
      some ((cum + totalDistanceMeters (prev :: l)) / 1000) := by
  induction l with
  | nil => intro _ _ h; exact absurd rfl h
  | cons c rest ih =>
    intro prev cum _
    cases rest with
    | nil =>
      show some ((calculatePointMetrics prev c cum).distance_km) = _
      have hld : (calculatePointMetrics prev c cum).distance_km =
          (cum + haversineDistance prev.lat prev.lon c.lat c.lon) / 1000 := rfl
      have htdm : totalDistanceMeters [prev, c] =
          haversineDistance prev.lat prev.lon c.lat c.lon + totalDistanceMeters [c] := rfl
      have htdm1 : totalDistanceMeters [c] = 0 := rfl
      rw [hld, htdm, htdm1, add_zero]
    | cons c2 rest2 =>
      have hloop : calculateSpeedAndBearingLoop prev cum (c :: c2 :: rest2) =
          calculatePointMetrics prev c cum ::
            calculateSpeedAndBearingLoop (calculatePointMetrics prev c cum)
              ((calculatePointMetrics prev c cum).distance_km * 1000) (c2 :: rest2) := rfl
      have hloop2 : calculateSpeedAndBearingLoop (calculatePointMetrics prev c cum)
          ((calculatePointMetrics prev c cum).distance_km * 1000) (c2 :: rest2) =
          calculatePointMetrics (calculatePointMetrics prev c cum) c2
              ((calculatePointMetrics prev c cum).distance_km * 1000) ::
            calculateSpeedAndBearingLoop
              (calculatePointMetrics (calculatePointMetrics prev c cum) c2
                ((calculatePointMetrics prev c cum).distance_km * 1000))
              ((calculatePointMetrics (calculatePointMetrics prev c cum) c2
                ((calculatePointMetrics prev c cum).distance_km * 1000)).distance_km * 1000)
              rest2 := rfl
      rw [hloop, hloop2, List.map_cons, List.map_cons, List.getLast?_cons_cons, ← List.map_cons,
        ← hloop2]
      rw [ih (calculatePointMetrics prev c cum)
        ((calculatePointMetrics prev c cum).distance_km * 1000) (List.cons_ne_nil _ _)]
      congr 1
      have harith : (calculatePointMetrics prev c cum).distance_km * 1000 =
          cum + haversineDistance prev.lat prev.lon c.lat c.lon := by
        show ((cum + haversineDistance prev.lat prev.lon c.lat c.lon) / 1000) * 1000 = _
        ring
      have htdm : totalDistanceMeters (calculatePointMetrics prev c cum :: c2 :: rest2) =
          haversineDistance c.lat c.lon c2.lat c2.lon + totalDistanceMeters (c2 :: rest2) := rfl
      have htdm2 : totalDistanceMeters (prev :: c :: c2 :: rest2) =
          haversineDistance prev.lat prev.lon c.lat c.lon +
            (haversineDistance c.lat c.lon c2.lat c2.lon + totalDistanceMeters (c2 :: rest2)) :=
        rfl
      rw [harith, htdm, htdm2]
      ring

/-- Claim C10: for a non-empty track, the independent consecutive-pair
sum of `calculateTotalDistance` over the enriched track equals the final
point's cumulative `distance_km` from the kinematics pass. -/
theorem totalDistance_eq_last_distance_km (pts : List GPXPoint) (h : pts ≠ []) :
    ((calculateSpeedAndBearing pts).map fun p => p.distance_km).getLast? =
      some (calculateTotalDistance (calculateSpeedAndBearing pts)) := by
  cases pts with
  | nil => exact absurd rfl h
  | cons p rest =>
    cases rest with
    | nil =>
      show some (0 : ℝ) = some ((0 : ℝ) / 1000)
      norm_num
    | cons c2 rest2 =>
      set p0 : GPXPoint := { p with speed_kmh := 0, bearing := 0, distance_km := 0 } with hp0def
      set c2' : GPXPoint := calculatePointMetrics p0 c2 0 with hc2def
      have hp0 : calculateSpeedAndBearing (p :: c2 :: rest2) =
          p0 :: calculateSpeedAndBearingLoop p0 0 (c2 :: rest2) := rfl
      have hloop2 : calculateSpeedAndBearingLoop p0 0 (c2 :: rest2) =
          c2' :: calculateSpeedAndBearingLoop c2' (c2'.distance_km * 1000) rest2 := rfl
      rw [hp0, List.map_cons, hloop2, List.map_cons, List.getLast?_cons_cons,
        ← List.map_cons, ← hloop2]
      rw [loop_last_distance (c2 :: rest2) p0 0 (List.cons_ne_nil _ _)]
      congr 1
      rw [calculateTotalDistance]
      have hcongr : totalDistanceMeters (p0 :: calculateSpeedAndBearingLoop p0 0 (c2 :: rest2)) =
          totalDistanceMeters (p0 :: c2 :: rest2) := by
        apply totalDistanceMeters_congr
        rw [List.map_cons, List.map_cons]
        congr 1
        rw [map_latlon_eq_map_gpxKey, gpxKey_map_loop, ← map_latlon_eq_map_gpxKey]
      rw [hcongr, zero_add]

/-- Witness for `totalDistance_eq_last_distance_km` on a concrete
one-point track. -/
theorem totalDistance_eq_last_distance_km_witness :
    ((calculateSpeedAndBearing [(⟨7, 8, 9, 0, 0, 0, 0, 0, 0⟩ : GPXPoint)]).map
        fun p => p.distance_km).getLast? =
      some (calculateTotalDistance
        (calculateSpeedAndBearing [(⟨7, 8, 9, 0, 0, 0, 0, 0, 0⟩ : GPXPoint)])) :=
  totalDistance_eq_last_distance_km [⟨7, 8, 9, 0, 0, 0, 0, 0, 0⟩] (by simp)

/-! ## Route statistics (C7) -/

/-- Folding `max` over per-element `max 0 _` clamps equals clamping the
plain fold once. -/
theorem foldl_max_map_max_zero (xs : List ℝ) : ∀ a : ℝ,
    ((xs.map fun x => max 0 x).foldl max (max 0 a)) = max 0 (xs.foldl max a) := by
  induction xs with
  | nil => intro a; rfl
  | cons x t ih =>
    intro a
    simp only [List.map_cons, List.foldl_cons]
    rw [show max (max 0 a) (max 0 x) = max 0 (max a x) by
      rw [max_max_max_comm, max_self], ih (max a x)]

/-- Folding `min` over per-element `min 0 _` clamps equals clamping the
plain fold once. -/
theorem foldl_min_map_min_zero (xs : List ℝ) : ∀ a : ℝ,
    ((xs.map fun x => min 0 x).foldl min (min 0 a)) = min 0 (xs.foldl min a) := by
  induction xs with
  | nil => intro a; rfl
  | cons x t ih =>
    intro a
    simp only [List.map_cons, List.foldl_cons]
    rw [show min (min 0 a) (min 0 x) = min 0 (min a x) by
      rw [min_min_min_comm, min_self], ih (min a x)]

/-- Claim C7: for a non-empty track, `maxHeadwind` is the zero-clamped
maximum of `wind_faced`, `maxTailwind` the zero-clamped negated minimum
(both therefore ≥ 0), `headwindPercentage` is `100 · count(wind_faced ≥
0) / count`, hence in `[0, 100]`, and `avgSpeed` is the guarded 0 (not
NaN) when no point has positive speed. -/
theorem calculateRouteStatistics_spec (q : GPXPoint) (qs : List GPXPoint) :
    (calculateRouteStatistics q qs).maxHeadwind =
        max 0 ((qs.map fun p => p.wind_faced).foldl max q.wind_faced) ∧
      (calculateRouteStatistics q qs).maxTailwind =
        max 0 (-((qs.map fun p => p.wind_faced).foldl min q.wind_faced)) ∧
      0 ≤ (calculateRouteStatistics q qs).maxHeadwind ∧
      0 ≤ (calculateRouteStatistics q qs).maxTailwind ∧
      (calculateRouteStatistics q qs).headwindPercentage =
        100 * ((((q :: qs).map fun p => p.wind_faced).filter fun w => decide (0 ≤ w)).length : ℝ) /
          (((q :: qs).map fun p => p.wind_faced).length : ℝ) ∧
      0 ≤ (calculateRouteStatistics q qs).headwindPercentage ∧
      (calculateRouteStatistics q qs).headwindPercentage ≤ 100 ∧
      ((∀ p ∈ q :: qs, p.speed_kmh ≤ 0) → (calculateRouteStatistics q qs).avgSpeed = 0) := by
  have hhead : (calculateRouteStatistics q qs).maxHeadwind =
      max 0 ((qs.map fun p => p.wind_faced).foldl max q.wind_faced) := by
    show ((qs.map fun p => max 0 p.wind_faced).foldl max (max 0 q.wind_faced)) = _
    rw [show (qs.map fun p => max 0 p.wind_faced) =
      ((qs.map fun p => p.wind_faced).map fun x => max 0 x) by rw [List.map_map]; rfl]
    exact foldl_max_map_max_zero _ _
  have htailmin : (calculateRouteStatistics q qs).maxTailwind =
      |min 0 ((qs.map fun p => p.wind_faced).foldl min q.wind_faced)| := by
    show |((qs.map fun p => min 0 p.wind_faced).foldl min (min 0 q.wind_faced))| = _
    rw [show (qs.map fun p => min 0 p.wind_faced) =
      ((qs.map fun p => p.wind_faced).map fun x => min 0 x) by rw [List.map_map]; rfl]
    rw [foldl_min_map_min_zero]
  have htail : (calculateRouteStatistics q qs).maxTailwind =
      max 0 (-((qs.map fun p => p.wind_faced).foldl min q.wind_faced)) := by
    rw [htailmin, abs_of_nonpos (min_le_left _ _)]
    rw [show -min 0 ((qs.map fun p => p.wind_faced).foldl min q.wind_faced) =
      max (-0) (-((qs.map fun p => p.wind_faced).foldl min q.wind_faced)) from
        (max_neg_neg _ _).symm, neg_zero]
  have hpct : (calculateRouteStatistics q qs).headwindPercentage =
      100 * ((((q :: qs).map fun p => p.wind_faced).filter fun w => decide (0 ≤ w)).length : ℝ) /
        (((q :: qs).map fun p => p.wind_faced).length : ℝ) := by
    show ((((q :: qs).map fun p => p.wind_faced).filter fun w => decide (0 ≤ w)).length : ℝ) /
        (((q :: qs).map fun p => p.wind_faced).length : ℝ) * 100 = _
    ring
  have hlenpos : (0 : ℝ) < (((q :: qs).map fun p => p.wind_faced).length : ℝ) := by
    rw [List.length_map, List.length_cons]
    exact_mod_cast Nat.succ_pos _
  have hcount : ((((q :: qs).map fun p => p.wind_faced).filter
      fun w => decide (0 ≤ w)).length : ℝ) ≤ (((q :: qs).map fun p => p.wind_faced).length : ℝ) :=
    by exact_mod_cast List.length_filter_le _ _
  have hcount0 : (0 : ℝ) ≤ ((((q :: qs).map fun p => p.wind_faced).filter
      fun w => decide (0 ≤ w)).length : ℝ) := by positivity
  refine ⟨hhead, htail, ?_, ?_, hpct, ?_, ?_, ?_⟩
  · rw [hhead]; exact le_max_left _ _
  · rw [htail]; exact le_max_left _ _
  · rw [hpct]; positivity
  · rw [hpct]
    rw [div_le_iff₀ hlenpos]
    nlinarith
  · intro hall
    have hfilter : (((q :: qs).map fun p => p.speed_kmh).filter fun s => decide (0 < s)) = [] := by
      rw [List.filter_eq_nil_iff]
      intro s hs
      rw [List.mem_map] at hs
      obtain ⟨p, hp, rfl⟩ := hs
      simp only [decide_eq_true_eq, not_lt]
      exact hall p hp
    show (if 0 < (((q :: qs).map fun p => p.speed_kmh).filter fun s => decide (0 < s)).length
      then _ / _ else 0) = 0
    rw [hfilter]
    norm_num

/-- Witness for `calculateRouteStatistics_spec`: a one-point track with
zero speed has `avgSpeed = 0` (the division guard, not NaN). -/
theorem calculateRouteStatistics_spec_witness :
    (calculateRouteStatistics (⟨0, 0, 0, 0, 0, 0, 0, 0, 0⟩ : GPXPoint) []).avgSpeed = 0 := by
  refine (calculateRouteStatistics_spec ⟨0, 0, 0, 0, 0, 0, 0, 0, 0⟩ []).2.2.2.2.2.2.2 ?_
  intro p hp
  rw [List.mem_singleton] at hp
  rw [hp]

end Windgpx
